import Mathlib

/-!
# ESP32 / ESP8266 RF24 traffic-priority demo: the 10-byte message protocol

A shallow embedding of `src/ESP32.cpp` (the Reader node) and `src/ESP8266.cpp`
(the Responder node), followed by theorems about the wire format, the two
message handlers, the priority policy and the tag-UID copy loop.

Conventions of the embedding

* A `uint8_t` is a `Nat`; a narrowing conversion into `uint8_t` is written
  `% 256` at the place where the source performs it.
* A `uint8_t *` (and a local `uint8_t x[n]`) is a `Mem`: offset ↦ byte.
* A local array is uninitialised in C.  Every function that declares one takes
  a parameter `stk : Mem`, the bytes the stack happens to hold, as the initial
  content of its local arrays; the theorems quantify over it.
* Observable behaviour is a list of `Event`s in program order: a
  `network.write` (destination node and the bytes handed to the radio) or a
  line printed on `Serial` (with the values passed to the format string).
  `network.update()` only pumps the radio and leaves no event.
* What the environment decides is a parameter: the result of each
  `network.write`, the value returned by each call of `random`, the frames the
  radio delivers, what the RFID scanner reports, and the constant
  `MAX_PAYLOAD_SIZE` of `RF24Network_config.h`.
-/

namespace RF24Demo

/-! ## Memory and the library calls used by both nodes -/

/-- Byte memory reached through a `uint8_t *`: offset ↦ value. -/
abbrev Mem := Nat → Nat

/-- The assignment `m[i] = v`. -/
def store (m : Mem) (i v : Nat) : Mem :=
  fun j => if j = i then v else m j

/-- The call `memcpy(&dst[d], &src[s], n)`. -/
def memcpy (dst : Mem) (d : Nat) (src : Mem) (s n : Nat) : Mem :=
  fun j => if d ≤ j ∧ j < d + n then src (s + (j - d)) else dst j

/-- The first `n` bytes behind a pointer, as a list. -/
def bytes (m : Mem) (n : Nat) : List Nat :=
  (List.range n).map m

/-- A concrete buffer holding the listed bytes (zero beyond them). -/
def ofList (l : List Nat) : Mem :=
  fun j => l.getD j 0

/-- The call `network.read(header, &payload, maxlen)` of RF24Network: the first
`min maxlen frame.length` bytes of the received frame are copied over
`payload`, the rest of `payload` keeps what it held. -/
def networkRead (maxlen : Nat) (payload : Mem) (frame : List Nat) : Mem :=
  fun j => if j < maxlen then (frame.get? j).getD (payload j) else payload j

/-- The integers the Arduino call `random(howsmall, howbig)` can return:
`howsmall` when the range is empty, otherwise `howsmall, …, howbig - 1`
(the upper bound is exclusive). -/
def randomOutcomes (howsmall howbig : Nat) : List Nat :=
  if howsmall ≥ howbig then [howsmall] else List.range' howsmall (howbig - howsmall)

/-- The three direction codes of the header comment of both source files:
`0x01 0x00` Left, `0x00 0x01` Right, `0x01 0x01` Straight. -/
def DirectionCodes : List (Nat × Nat) := [(1, 0), (0, 1), (1, 1)]

/-! ## Observable events -/

/-- A line printed on `Serial`, with the values given to its format string. -/
inductive Line
  /-- Format `"Tag detected. UID: %02X%02X%02X%02X"` (ESP32 `loop`). -/
  | tagDetected (tagUID : List Nat)
  /-- Text `"Query sent successfully."` / `"Query failed."` (ESP32 `SendQuery`). -/
  | querySent (success : Bool)
  /-- Format `"Response Received TAG UID: …, Speed: …, Direction: …"`
  (ESP32 `HandleResponse`). -/
  | responseReceived (tagUID : List Nat) (speed : Nat) (direction : List Nat)
  /-- Text `"Priority update sent successfully."` / `"Priority update failed."`
  (ESP32 `SendPriorityUpdate`). -/
  | priorityUpdateSent (success : Bool)
  /-- Format `"Received Query Message TAG_UID: …, Emergency Slowdown: %d"`
  (ESP8266 `handleMessage`). -/
  | queryReceived (tagUID : List Nat) (emergencySlowdown : Bool)
  /-- Format `"Received Priority Update TAG_UID: …, Priority: %d, Direction: …"`
  (ESP8266 `handleMessage`). -/
  | priorityUpdateReceived (tagUID : List Nat) (priority : Nat) (direction : List Nat)
  /-- Format `"Responded with TAG_UID: … with Speed: …, Direction: …, Status: %s"`
  (ESP8266 `respondWithRandomSpeedDirection`). -/
  | responded (tagUID : List Nat) (speed : Nat) (direction : List Nat) (success : Bool)
  deriving DecidableEq

/-- One observable action of a node. -/
inductive Event
  /-- The call `network.write(header(node), &message, sizeof(message))`. -/
  | write (node : Nat) (message : List Nat)
  /-- A line on `Serial`. -/
  | print (line : Line)
  deriving DecidableEq

/-- The messages handed to the radio, in order. -/
def sent : List Event → List (List Nat)
  | [] => []
  | Event.write _ message :: es => message :: sent es
  | Event.print _ :: es => sent es

/-- The priority updates the Responder recorded, in order, each as
`(tagUID, priority, direction)`. -/
def recorded : List Event → List (List Nat × Nat × List Nat)
  | [] => []
  | Event.print (Line.priorityUpdateReceived t p d) :: es => (t, p, d) :: recorded es
  | _ :: es => recorded es

/-! ## `src/ESP32.cpp`: the Reader node -/

namespace ESP32

/-- Source: `const uint16_t this_node = 01;` (octal). -/
def this_node : Nat := 1

/-- Source: `const uint16_t other_node = 00;` (octal). -/
def other_node : Nat := 0

/-- Source: `void SendQuery(uint8_t *tagUID, bool EmergencySlowdown)`. -/
def SendQuery (stk : Mem) (tagUID : Mem) (EmergencySlowdown : Bool) (success : Bool) :
    List Event :=
  let query : Mem := stk                         -- uint8_t query[10];
  let query := store query 0 1
  let query := memcpy query 1 tagUID 0 4
  let query := store query 5 (if EmergencySlowdown then 1 else 0)
  -- for (int i = 6; i < sizeof(query); i++) query[i] = 0xFF;
  let query := (List.range' 6 (10 - 6)).foldl (fun q i => store q i 0xFF) query
  [Event.write other_node (bytes query 10), Event.print (Line.querySent success)]

/-- Source: `uint8_t computePriority(uint16_t speed, uint8_t *direction)`. -/
def computePriority (speed : Nat) (_direction : Mem) : Nat :=
  if speed > 100 then 255 else 128

/-- Source: `void SendPriorityUpdate(uint8_t *tagUID, uint8_t priority, uint8_t speed,
uint8_t *direction)`. -/
def SendPriorityUpdate (stk : Mem) (tagUID : Mem) (priority speed : Nat) (direction : Mem)
    (success : Bool) : List Event :=
  let UpdateMessage : Mem := stk                 -- uint8_t UpdateMessage[10];
  let UpdateMessage := store UpdateMessage 0 3
  let UpdateMessage := memcpy UpdateMessage 1 tagUID 0 4
  let UpdateMessage := store UpdateMessage 5 0xFF
  let UpdateMessage := store UpdateMessage 6 priority
  let UpdateMessage := store UpdateMessage 7 speed
  let UpdateMessage := memcpy UpdateMessage 8 direction 0 2
  [Event.write other_node (bytes UpdateMessage 10),
   Event.print (Line.priorityUpdateSent success)]

/-- Source: `void HandleResponse(uint8_t *payload)`. -/
def HandleResponse (stk : Mem) (payload : Mem) (success : Bool) : List Event :=
  let msgType := payload 0
  let tagUID := memcpy stk 0 payload 1 4         -- uint8_t tagUID[4];
  if msgType = 2 then
    let speed := payload 7
    let direction := memcpy stk 0 payload 8 2    -- uint8_t direction[2];
    let priority := computePriority speed direction
    Event.print (Line.responseReceived (bytes tagUID 4) speed (bytes direction 2))
      :: SendPriorityUpdate stk tagUID priority speed direction success
  else
    []

/-- The `Uid` record of the MFRC522 library (`byte size; byte uidByte[10];`):
what `PICC_ReadCardSerial` leaves in `mfrc522.uid`. -/
structure Uid where
  /-- Number of bytes of the UID: 4, 7 or 10 for the tags the scanner reads. -/
  size : Nat
  /-- The UID bytes. -/
  uidByte : Mem

/-- State of the copy loop of `loop`: the memory at and after `tagUID`, and
the offsets written so far. -/
structure CopyState where
  /-- Memory starting at `&tagUID[0]`; `tagUID` itself is offsets 0 to 3. -/
  tagUID : Mem
  /-- Offsets the loop stored to, in order. -/
  writes : List Nat

/-- The loop `for (byte i = 0; i < mfrc522.uid.size; i++) tagUID[i] =
mfrc522.uid.uidByte[i];` of `loop`, started on the uninitialised
`uint8_t tagUID[4]`. -/
def copyUID (stk : Mem) (uid : Uid) : CopyState :=
  (List.range uid.size).foldl
    (fun st i => { tagUID := store st.tagUID i (uid.uidByte i), writes := st.writes ++ [i] })
    { tagUID := stk, writes := [] }

/-- One frame waiting in the radio's queue, with what the environment decides
while it is handled. -/
structure Arrival where
  /-- The bytes of the frame, of whatever length was transmitted. -/
  frame : List Nat
  /-- The bytes the stack holds where `payload` is placed. -/
  stk : Mem
  /-- Result of the `network.write` the handler may perform. -/
  success : Bool

/-- The loop `while (network.available()) { …; network.read(header, &payload,
sizeof(payload)); HandleResponse(payload); }`, over the frames it finds. -/
def drain (MAX_PAYLOAD_SIZE : Nat) : List Arrival → List Event
  | [] => []
  | a :: rest =>
    HandleResponse a.stk (networkRead MAX_PAYLOAD_SIZE a.stk a.frame) a.success
      ++ drain MAX_PAYLOAD_SIZE rest

/-- Source: `void loop()`.  `inbox` are the frames found by the first `while`, `card`
is what the scanner reports (`none` when `PICC_IsNewCardPresent` or
`PICC_ReadCardSerial` fails), `inbox2` the frames found by the second `while`.
The result is `none` when the copy loop stores outside `tagUID[4]`, where C
leaves the behaviour undefined. -/
def loop (MAX_PAYLOAD_SIZE : Nat) (stk : Mem) (inbox : List Arrival) (card : Option Uid)
    (success : Bool) (inbox2 : List Arrival) : Option (List Event) :=
  let ev := drain MAX_PAYLOAD_SIZE inbox
  match card with
  | none => some ev
  | some uid =>
    let st := copyUID stk uid
    if st.writes.all (fun i => decide (i < 4)) then
      some (ev ++ Event.print (Line.tagDetected (bytes st.tagUID 4))
        :: SendQuery stk st.tagUID false success ++ drain MAX_PAYLOAD_SIZE inbox2)
    else
      none

end ESP32

/-! ## `src/ESP8266.cpp`: the Responder node -/

namespace ESP8266

/-- Source: `const uint16_t this_node = 00;` (octal). -/
def this_node : Nat := 0

/-- Source: `const uint16_t other_node = 01;` (octal). -/
def other_node : Nat := 1

/-- Source: `void respondWithRandomSpeedDirection(uint8_t *tagUID)`; `rndSpeed` is the
value returned by `random(50, 200)` and `rndDir` the one returned by
`random(0, 4)`. -/
def respondWithRandomSpeedDirection (stk : Mem) (tagUID : Mem) (rndSpeed rndDir : Nat)
    (success : Bool) : List Event :=
  let message : Mem := stk                       -- uint8_t message[10];
  let message := store message 0 2
  let message := memcpy message 1 tagUID 0 4
  let message := store message 5 0xFF
  let message := store message 6 0xFF
  let speed := rndSpeed % 256                    -- uint8_t speed = random(50, 200);
  let message := store message 7 speed
  let dirPicker := rndDir % 256                  -- uint8_t dirPicker = random(0, 4);
  let message :=
    if dirPicker = 0 then store (store message 8 0x1) 9 0x0
    else if dirPicker = 1 then store (store message 8 0x0) 9 0x1
    else store (store message 8 0x1) 9 0x1
  [Event.write other_node (bytes message 10),
   Event.print (Line.responded (bytes tagUID 4) speed [message 8, message 9] success)]

/-- Source: `void handleMessage(uint8_t *payload)`. -/
def handleMessage (stk : Mem) (payload : Mem) (rndSpeed rndDir : Nat) (success : Bool) :
    List Event :=
  let msgType := payload 0
  let tagUID := memcpy stk 0 payload 1 4         -- uint8_t tagUID[4];
  let query :=
    if msgType = 1 then
      let emergencySlowdown : Bool := decide (payload 5 ≠ 0)
      Event.print (Line.queryReceived (bytes tagUID 4) emergencySlowdown)
        :: respondWithRandomSpeedDirection stk tagUID rndSpeed rndDir success
    else
      []
  let update :=
    if msgType = 3 then
      let priority := payload 6
      let direction := memcpy stk 0 payload 8 2  -- uint8_t direction[2];
      [Event.print (Line.priorityUpdateReceived (bytes tagUID 4) priority (bytes direction 2))]
    else
      []
  query ++ update

/-- One frame waiting in the radio's queue, with what the environment decides
while it is handled. -/
structure Arrival where
  /-- The bytes of the frame, of whatever length was transmitted. -/
  frame : List Nat
  /-- The bytes the stack holds where `payload` is placed. -/
  stk : Mem
  /-- Value returned by `random(50, 200)` if the handler calls it. -/
  rndSpeed : Nat
  /-- Value returned by `random(0, 4)` if the handler calls it. -/
  rndDir : Nat
  /-- Result of the `network.write` the handler may perform. -/
  success : Bool

/-- Source: `void loop()`: `network.update()` and then `while (network.available())
{ …; network.read(header, &payload, sizeof(payload)); handleMessage(payload); }`
over the frames it finds. -/
def loop (MAX_PAYLOAD_SIZE : Nat) : List Arrival → List Event
  | [] => []
  | a :: rest =>
    handleMessage a.stk (networkRead MAX_PAYLOAD_SIZE a.stk a.frame) a.rndSpeed a.rndDir
        a.success
      ++ loop MAX_PAYLOAD_SIZE rest

end ESP8266

/-! ## Reading the events -/

/-- Bytes 8 and 9 of the first message handed to the radio: the direction code
it carries. -/
def sentDirection (es : List Event) : Option (Nat × Nat) :=
  match sent es with
  | [] => none
  | m :: _ =>
    match m.get? 8, m.get? 9 with
    | some d0, some d1 => some (d0, d1)
    | _, _ => none

/-! ## Layout lemmas -/

theorem bytes_two (m : Mem) : bytes m 2 = [m 0, m 1] := rfl

theorem bytes_four (m : Mem) : bytes m 4 = [m 0, m 1, m 2, m 3] := rfl

theorem bytes_ten (m : Mem) :
    bytes m 10 = [m 0, m 1, m 2, m 3, m 4, m 5, m 6, m 7, m 8, m 9] := rfl

/-- All events of `SendQuery`, byte by byte. -/
theorem SendQuery_events (stk tagUID : Mem) (e ok : Bool) :
    ESP32.SendQuery stk tagUID e ok =
      [Event.write 0 [1, tagUID 0, tagUID 1, tagUID 2, tagUID 3, if e then 1 else 0,
        255, 255, 255, 255], Event.print (Line.querySent ok)] := by
  simp [ESP32.SendQuery, ESP32.other_node, bytes_ten, store, memcpy, List.range']

/-- All events of `SendPriorityUpdate`, byte by byte. -/
theorem SendPriorityUpdate_events (stk tagUID : Mem) (priority speed : Nat) (direction : Mem)
    (ok : Bool) :
    ESP32.SendPriorityUpdate stk tagUID priority speed direction ok =
      [Event.write 0 [3, tagUID 0, tagUID 1, tagUID 2, tagUID 3, 255, priority, speed,
        direction 0, direction 1], Event.print (Line.priorityUpdateSent ok)] := by
  simp [ESP32.SendPriorityUpdate, ESP32.other_node, bytes_ten, store, memcpy]

/-- All events of `HandleResponse` on a payload of kind 2. -/
theorem HandleResponse_events (stk b : Mem) (ok : Bool) (h : b 0 = 2) :
    ESP32.HandleResponse stk b ok =
      [Event.print (Line.responseReceived [b 1, b 2, b 3, b 4] (b 7) [b 8, b 9]),
       Event.write 0 [3, b 1, b 2, b 3, b 4, 255, ESP32.computePriority (b 7) (ofList [b 8, b 9]),
         b 7, b 8, b 9],
       Event.print (Line.priorityUpdateSent ok)] := by
  simp [ESP32.HandleResponse, h, SendPriorityUpdate_events, bytes_two, bytes_four, memcpy,
    ESP32.computePriority]

/-- A payload of any other kind leaves `HandleResponse` without events. -/
theorem HandleResponse_other (stk b : Mem) (ok : Bool) (h : b 0 ≠ 2) :
    ESP32.HandleResponse stk b ok = [] := by
  simp [ESP32.HandleResponse, h]

/-- The direction code chosen for a value of the picker. -/
theorem picked_mem (p : Nat) :
    (if p % 256 = 0 then ((1 : Nat), (0 : Nat)) else if p % 256 = 1 then (0, 1) else (1, 1))
      ∈ DirectionCodes := by
  unfold DirectionCodes
  split_ifs <;> simp

/-- All events of `respondWithRandomSpeedDirection`, byte by byte. -/
theorem respond_events (stk tagUID : Mem) (s p : Nat) (ok : Bool) :
    ∃ d0 d1, (d0, d1) =
        (if p % 256 = 0 then ((1 : Nat), (0 : Nat)) else if p % 256 = 1 then (0, 1) else (1, 1)) ∧
      ESP8266.respondWithRandomSpeedDirection stk tagUID s p ok =
        [Event.write 1 [2, tagUID 0, tagUID 1, tagUID 2, tagUID 3, 255, 255, s % 256, d0, d1],
         Event.print (Line.responded [tagUID 0, tagUID 1, tagUID 2, tagUID 3] (s % 256)
           [d0, d1] ok)] := by
  by_cases h0 : p % 256 = 0
  · exact ⟨1, 0, by simp [h0], by
      simp [ESP8266.respondWithRandomSpeedDirection, ESP8266.other_node, bytes_ten, bytes_four,
        store, memcpy, h0]⟩
  · by_cases h1 : p % 256 = 1
    · exact ⟨0, 1, by simp [h1], by
        simp [ESP8266.respondWithRandomSpeedDirection, ESP8266.other_node, bytes_ten,
          bytes_four, store, memcpy, h1]⟩
    · exact ⟨1, 1, by simp [h0, h1], by
        simp [ESP8266.respondWithRandomSpeedDirection, ESP8266.other_node, bytes_ten,
          bytes_four, store, memcpy, h0, h1]⟩

/-- All events of `handleMessage` on a payload of kind 1. -/
theorem handleMessage_query (stk b : Mem) (s p : Nat) (ok : Bool) (h : b 0 = 1) :
    ESP8266.handleMessage stk b s p ok =
      Event.print (Line.queryReceived [b 1, b 2, b 3, b 4] (decide (b 5 ≠ 0)))
        :: ESP8266.respondWithRandomSpeedDirection stk (memcpy stk 0 b 1 4) s p ok := by
  simp [ESP8266.handleMessage, h, bytes_four, memcpy]

/-- All events of `handleMessage` on a payload of kind 3. -/
theorem handleMessage_update (stk b : Mem) (s p : Nat) (ok : Bool) (h : b 0 = 3) :
    ESP8266.handleMessage stk b s p ok =
      [Event.print (Line.priorityUpdateReceived [b 1, b 2, b 3, b 4] (b 6) [b 8, b 9])] := by
  simp [ESP8266.handleMessage, h, bytes_four, bytes_two, memcpy]

/-- A payload of any other kind leaves `handleMessage` without events. -/
theorem handleMessage_other (stk b : Mem) (s p : Nat) (ok : Bool) (h1 : b 0 ≠ 1)
    (h3 : b 0 ≠ 3) : ESP8266.handleMessage stk b s p ok = [] := by
  simp [ESP8266.handleMessage, h1, h3]

/-- What `network.read` leaves in the first ten bytes of a buffer of at least
ten bytes after a frame of exactly ten bytes. -/
theorem networkRead_ten (MAX : Nat) (h : 10 ≤ MAX) (junk : Mem)
    (a0 a1 a2 a3 a4 a5 a6 a7 a8 a9 : Nat) :
    bytes (networkRead MAX junk [a0, a1, a2, a3, a4, a5, a6, a7, a8, a9]) 10 =
      [a0, a1, a2, a3, a4, a5, a6, a7, a8, a9] := by
  have h0 : 0 < MAX := by omega
  have h1 : 1 < MAX := by omega
  have h2 : 2 < MAX := by omega
  have h3 : 3 < MAX := by omega
  have h4 : 4 < MAX := by omega
  have h5 : 5 < MAX := by omega
  have h6 : 6 < MAX := by omega
  have h7 : 7 < MAX := by omega
  have h8 : 8 < MAX := by omega
  have h9 : 9 < MAX := by omega
  simp [bytes_ten, networkRead, h0, h1, h2, h3, h4, h5, h6, h7, h8, h9]

/-- The direction transmitted by `respondWithRandomSpeedDirection`, as a
function of the value of the picker. -/
theorem sentDirection_respond (stk tagUID : Mem) (s p : Nat) (ok : Bool) :
    sentDirection (ESP8266.respondWithRandomSpeedDirection stk tagUID s p ok) =
      some (if p % 256 = 0 then ((1 : Nat), (0 : Nat))
        else if p % 256 = 1 then (0, 1) else (1, 1)) := by
  obtain ⟨d0, d1, hd, hev⟩ := respond_events stk tagUID s p ok
  rw [hev, ← hd]
  simp [sentDirection, sent]

/-- Membership in the range of `random` when the range is not empty. -/
theorem mem_randomOutcomes (lo hi x : Nat) (h : lo < hi) :
    x ∈ randomOutcomes lo hi ↔ lo ≤ x ∧ x < hi := by
  have hn : ¬ lo ≥ hi := by omega
  simp only [randomOutcomes, hn, if_false, List.mem_range'_1]
  omega

/-- When each handler leaves no event at all. -/
theorem kind_dispatch_aux (stk b : Mem) (s p : Nat) (ok : Bool) :
    (ESP32.HandleResponse stk b ok = [] ↔ b 0 ≠ 2) ∧
    (ESP8266.handleMessage stk b s p ok = [] ↔ b 0 ≠ 1 ∧ b 0 ≠ 3) := by
  constructor
  · by_cases h : b 0 = 2
    · simp [HandleResponse_events stk b ok h, h]
    · simp [HandleResponse_other stk b ok h, h]
  · by_cases h1 : b 0 = 1
    · simp [handleMessage_query stk b s p ok h1, h1]
    · by_cases h3 : b 0 = 3
      · simp [handleMessage_update stk b s p ok h3, h3]
      · simp [handleMessage_other stk b s p ok h1 h3, h1, h3]

/-! ## Stuffing of the unused positions -/

/-- C2. Every builder writes 0xFF into every position that is not meaningful
for the kind it builds, whatever its inputs, the stack content and the random
draws: `SendQuery` hands the radio one 10-byte message with 0xFF at offsets 6,
7, 8, 9; `respondWithRandomSpeedDirection` one with 0xFF at offsets 5 and 6;
`SendPriorityUpdate` one with 0xFF at offset 5.  `SendQuery([01,02,03,04],
false)` builds `01 01 02 03 04 00 FF FF FF FF`. -/
theorem stuffing_invariant (stk tagUID direction : Mem) (e ok : Bool)
    (priority speed rndSpeed rndDir : Nat) :
    (∃ m, sent (ESP32.SendQuery stk tagUID e ok) = [m] ∧ m.length = 10 ∧
        m.get? 6 = some 0xFF ∧ m.get? 7 = some 0xFF ∧ m.get? 8 = some 0xFF ∧
        m.get? 9 = some 0xFF) ∧
    (∃ m, sent (ESP8266.respondWithRandomSpeedDirection stk tagUID rndSpeed rndDir ok) = [m] ∧
        m.length = 10 ∧ m.get? 5 = some 0xFF ∧ m.get? 6 = some 0xFF) ∧
    (∃ m, sent (ESP32.SendPriorityUpdate stk tagUID priority speed direction ok) = [m] ∧
        m.length = 10 ∧ m.get? 5 = some 0xFF) ∧
    sent (ESP32.SendQuery stk (ofList [1, 2, 3, 4]) false ok) =
      [[0x01, 0x01, 0x02, 0x03, 0x04, 0x00, 0xFF, 0xFF, 0xFF, 0xFF]] := by
  refine ⟨?_, ?_, ?_, ?_⟩
  · rw [SendQuery_events]
    exact ⟨_, rfl, rfl, rfl, rfl, rfl, rfl⟩
  · obtain ⟨d0, d1, -, hev⟩ := respond_events stk tagUID rndSpeed rndDir ok
    rw [hev]
    exact ⟨_, rfl, rfl, rfl, rfl⟩
  · rw [SendPriorityUpdate_events]
    exact ⟨_, rfl, rfl, rfl⟩
  · rw [SendQuery_events]
    rfl

/-! ## The priority policy -/

/-- C3. For every speed and every direction, `computePriority` returns 255
when the speed exceeds 100 and 128 otherwise, and the result is the same for
any two directions; in particular it is 255 at speed 101 and 128 at speeds 100
and 0. -/
theorem computePriority_policy (speed : Nat) (direction direction' : Mem) :
    ESP32.computePriority speed direction = (if 100 < speed then 255 else 128) ∧
    ESP32.computePriority speed direction = ESP32.computePriority speed direction' ∧
    ESP32.computePriority 101 direction = 255 ∧
    ESP32.computePriority 100 direction = 128 ∧
    ESP32.computePriority 0 direction = 128 := by
  refine ⟨?_, ?_, ?_, ?_, ?_⟩ <;> simp [ESP32.computePriority]

/-! ## The Reader on a Response -/

/-- C4. On a payload `b` with `b[0] = 2`, `HandleResponse` hands the radio
exactly one message, the ten bytes `[3, b[1], b[2], b[3], b[4], 0xFF,
computePriority(b[7], (b[8], b[9])), b[7], b[8], b[9]]`; a payload of kind 2
that differs from `b` only at offsets 5 and 6 (and a different stack content)
gives the same message. -/
theorem HandleResponse_sends (stk b : Mem) (ok : Bool) (h : b 0 = 2) :
    sent (ESP32.HandleResponse stk b ok) =
      [[3, b 1, b 2, b 3, b 4, 0xFF, ESP32.computePriority (b 7) (ofList [b 8, b 9]),
        b 7, b 8, b 9]] ∧
    ∀ (stk' b' : Mem), b' 0 = 2 → b' 1 = b 1 → b' 2 = b 2 → b' 3 = b 3 → b' 4 = b 4 →
      b' 7 = b 7 → b' 8 = b 8 → b' 9 = b 9 →
      sent (ESP32.HandleResponse stk' b' ok) = sent (ESP32.HandleResponse stk b ok) := by
  constructor
  · rw [HandleResponse_events stk b ok h]
    rfl
  · intro stk' b' h0 h1 h2 h3 h4 h7 h8 h9
    rw [HandleResponse_events stk b ok h, HandleResponse_events stk' b' ok h0,
      h1, h2, h3, h4, h7, h8, h9]

/-- C4, instance: the Response `02 01 02 03 04 FF FF 96 01 00` is answered by
the PriorityAssignment `03 01 02 03 04 FF FF 96 01 00`. -/
theorem HandleResponse_sends_witness :
    ofList [0x02, 0x01, 0x02, 0x03, 0x04, 0xFF, 0xFF, 0x96, 0x01, 0x00] 0 = 2 ∧
    sent (ESP32.HandleResponse (fun _ => 0xAA)
        (ofList [0x02, 0x01, 0x02, 0x03, 0x04, 0xFF, 0xFF, 0x96, 0x01, 0x00]) true) =
      [[0x03, 0x01, 0x02, 0x03, 0x04, 0xFF, 0xFF, 0x96, 0x01, 0x00]] :=
  ⟨rfl, (HandleResponse_sends (fun _ => 0xAA)
    (ofList [0x02, 0x01, 0x02, 0x03, 0x04, 0xFF, 0xFF, 0x96, 0x01, 0x00]) true rfl).1⟩

/-! ## The Responder on a Query -/

/-- C5. On a payload `b` with `b[0] = 1`, for every value `s` that
`random(50, 200)` can return and every value `p` of the direction picker (so
for each one `random(0, 4)` can return), `handleMessage` hands the radio
exactly one message, `[2, b[1], b[2],
b[3], b[4], 0xFF, 0xFF, s, d0, d1]` with `50 ≤ s < 200` (the speed byte is the
drawn value itself) and `(d0, d1)` one of the three direction codes; a payload
of kind 1 with the same tag bytes (and a different stack content) gives the
same message, whatever it holds at offsets 5 to 9. -/
theorem handleMessage_query_reply (stk b : Mem) (s p : Nat) (ok : Bool) (h : b 0 = 1)
    (hs : s ∈ randomOutcomes 50 200) :
    (∃ d0 d1, (d0, d1) ∈ DirectionCodes ∧
      sent (ESP8266.handleMessage stk b s p ok) =
        [[2, b 1, b 2, b 3, b 4, 0xFF, 0xFF, s, d0, d1]]) ∧
    50 ≤ s ∧ s < 200 ∧
    ∀ (stk' b' : Mem), b' 0 = 1 → b' 1 = b 1 → b' 2 = b 2 → b' 3 = b 3 → b' 4 = b 4 →
      sent (ESP8266.handleMessage stk' b' s p ok) = sent (ESP8266.handleMessage stk b s p ok) := by
  have hs' : 50 ≤ s ∧ s < 200 := (mem_randomOutcomes 50 200 s (by decide)).1 hs
  have hmod : s % 256 = s := Nat.mod_eq_of_lt (by omega)
  refine ⟨?_, hs'.1, hs'.2, ?_⟩
  · obtain ⟨d0, d1, hd, hev⟩ := respond_events stk (memcpy stk 0 b 1 4) s p ok
    refine ⟨d0, d1, ?_, ?_⟩
    · rw [hd]
      exact picked_mem p
    · rw [handleMessage_query stk b s p ok h, hev]
      simp [sent, memcpy, hmod]
  · intro stk' b' h0 h1 h2 h3 h4
    obtain ⟨d0, d1, hd, hev⟩ := respond_events stk (memcpy stk 0 b 1 4) s p ok
    obtain ⟨e0, e1, he, hev'⟩ := respond_events stk' (memcpy stk' 0 b' 1 4) s p ok
    have hde : (e0, e1) = (d0, d1) := by rw [he, hd]
    have h0e : e0 = d0 := congrArg Prod.fst hde
    have h1e : e1 = d1 := congrArg Prod.snd hde
    rw [handleMessage_query stk b s p ok h, handleMessage_query stk' b' s p ok h0, hev, hev']
    simp [sent, memcpy, h1, h2, h3, h4, h0e, h1e]

/-- C5, instance: the Query `01 01 02 03 04 00 FF FF FF FF` with draws 150
and 0 is answered by exactly one message of kind 2 for the same tag, with
speed byte 150 and a defined direction code. -/
theorem handleMessage_query_reply_witness :
    ofList [1, 1, 2, 3, 4, 0, 255, 255, 255, 255] 0 = 1 ∧
    150 ∈ randomOutcomes 50 200 ∧ 0 ∈ randomOutcomes 0 4 ∧
    ∃ d0 d1, (d0, d1) ∈ DirectionCodes ∧
      sent (ESP8266.handleMessage (fun _ => 0xAA)
          (ofList [1, 1, 2, 3, 4, 0, 255, 255, 255, 255]) 150 0 true) =
        [[2, 1, 2, 3, 4, 0xFF, 0xFF, 150, d0, d1]] :=
  ⟨rfl, by decide, by decide,
    (handleMessage_query_reply (fun _ => 0xAA) (ofList [1, 1, 2, 3, 4, 0, 255, 255, 255, 255])
      150 0 true rfl (by decide)).1⟩

/-! ## Dispatch on the kind byte -/

/-- C8. For every payload `b`: the Reader's `HandleResponse` hands a message
to the radio exactly when `b[0] = 2` and does nothing at all otherwise; the
Responder's `handleMessage` hands a message to the radio exactly when
`b[0] = 1`, records a priority update exactly when `b[0] = 3`, and does nothing
at all when `b[0]` is neither 1 nor 3.  So a kind byte in 0, 4, 5, …, 255 is
ignored by both, a Response is ignored by the Responder, and a Query or a
PriorityAssignment is ignored by the Reader. -/
theorem kind_dispatch (stk b : Mem) (s p : Nat) (ok : Bool) :
    (sent (ESP32.HandleResponse stk b ok) ≠ [] ↔ b 0 = 2) ∧
    (ESP32.HandleResponse stk b ok = [] ↔ b 0 ≠ 2) ∧
    (sent (ESP8266.handleMessage stk b s p ok) ≠ [] ↔ b 0 = 1) ∧
    (recorded (ESP8266.handleMessage stk b s p ok) ≠ [] ↔ b 0 = 3) ∧
    (ESP8266.handleMessage stk b s p ok = [] ↔ b 0 ≠ 1 ∧ b 0 ≠ 3) := by
  refine ⟨?_, ?_, ?_, ?_, ?_⟩
  · by_cases h : b 0 = 2
    · simp [HandleResponse_events stk b ok h, sent, h]
    · simp [HandleResponse_other stk b ok h, sent, h]
  · by_cases h : b 0 = 2
    · simp [HandleResponse_events stk b ok h, h]
    · simp [HandleResponse_other stk b ok h, h]
  · by_cases h1 : b 0 = 1
    · obtain ⟨d0, d1, -, hev⟩ := respond_events stk (memcpy stk 0 b 1 4) s p ok
      simp [handleMessage_query stk b s p ok h1, hev, sent, h1]
    · by_cases h3 : b 0 = 3
      · simp [handleMessage_update stk b s p ok h3, sent, h1]
      · simp [handleMessage_other stk b s p ok h1 h3, sent, h1]
  · by_cases h3 : b 0 = 3
    · simp [handleMessage_update stk b s p ok h3, recorded, h3]
    · by_cases h1 : b 0 = 1
      · obtain ⟨d0, d1, -, hev⟩ := respond_events stk (memcpy stk 0 b 1 4) s p ok
        simp [handleMessage_query stk b s p ok h1, hev, recorded, h3]
      · simp [handleMessage_other stk b s p ok h1 h3, recorded, h3]
  · by_cases h1 : b 0 = 1
    · simp [handleMessage_query stk b s p ok h1, h1]
    · by_cases h3 : b 0 = 3
      · simp [handleMessage_update stk b s p ok h3, h3]
      · simp [handleMessage_other stk b s p ok h1 h3, h1, h3]

/-! ## Round trip over the wire -/

/-- C1, as the code has it. For every tag, every field value, every stack
content and every `MAX_PAYLOAD_SIZE ≥ 10`, the receiving handler, run on the
buffer `network.read` fills from the one message the sender handed to the
radio, reads the kind the sender wrote and extracts the sender's fields:
`SendQuery(tag, e)` read by `handleMessage` gives kind 1, the same tag and
emergency slowdown `e`; the message of `respondWithRandomSpeedDirection` read
by `HandleResponse` gives kind 2 and the tag, speed and direction the Responder
reports having sent; `SendPriorityUpdate(tag, priority, speed, direction)` read
by `handleMessage` gives kind 3 and the same tag, priority and direction, and
nothing else: the speed is carried at offset 7 of the message and is not read
by `handleMessage`. -/
theorem wire_round_trip (MAX : Nat) (hmax : 10 ≤ MAX) (stk stk' junk tagUID direction : Mem)
    (e ok ok' : Bool) (priority speed rndSpeed rndDir s' p' : Nat) :
    (∃ m, sent (ESP32.SendQuery stk tagUID e ok) = [m] ∧
      networkRead MAX junk m 0 = 1 ∧
      (ESP8266.handleMessage stk' (networkRead MAX junk m) s' p' ok').head? =
        some (Event.print (Line.queryReceived (bytes tagUID 4) e))) ∧
    (∃ m spd dir, ESP8266.respondWithRandomSpeedDirection stk tagUID rndSpeed rndDir ok =
        [Event.write 1 m, Event.print (Line.responded (bytes tagUID 4) spd dir ok)] ∧
      networkRead MAX junk m 0 = 2 ∧
      (ESP32.HandleResponse stk' (networkRead MAX junk m) ok').head? =
        some (Event.print (Line.responseReceived (bytes tagUID 4) spd dir))) ∧
    (∃ m, sent (ESP32.SendPriorityUpdate stk tagUID priority speed direction ok) = [m] ∧
      networkRead MAX junk m 0 = 3 ∧ m.get? 7 = some speed ∧
      ESP8266.handleMessage stk' (networkRead MAX junk m) s' p' ok' =
        [Event.print (Line.priorityUpdateReceived (bytes tagUID 4) priority
          (bytes direction 2))]) := by
  refine ⟨?_, ?_, ?_⟩
  · refine ⟨_, by rw [SendQuery_events]; rfl, ?_⟩
    have hb := networkRead_ten MAX hmax junk 1 (tagUID 0) (tagUID 1) (tagUID 2) (tagUID 3)
      (if e then 1 else 0) 255 255 255 255
    simp only [bytes_ten, List.cons.injEq] at hb
    obtain ⟨r0, r1, r2, r3, r4, r5, -⟩ := hb
    refine ⟨r0, ?_⟩
    rw [handleMessage_query _ _ _ _ _ r0, r1, r2, r3, r4, r5, bytes_four]
    cases e <;> simp
  · obtain ⟨d0, d1, -, hev⟩ := respond_events stk tagUID rndSpeed rndDir ok
    refine ⟨_, rndSpeed % 256, [d0, d1], by rw [hev, bytes_four], ?_⟩
    have hb := networkRead_ten MAX hmax junk 2 (tagUID 0) (tagUID 1) (tagUID 2) (tagUID 3)
      255 255 (rndSpeed % 256) d0 d1
    simp only [bytes_ten, List.cons.injEq] at hb
    obtain ⟨r0, r1, r2, r3, r4, -, -, r7, r8, r9, -⟩ := hb
    refine ⟨r0, ?_⟩
    rw [HandleResponse_events _ _ _ r0, r1, r2, r3, r4, r7, r8, r9, bytes_four]
    rfl
  · refine ⟨_, by rw [SendPriorityUpdate_events]; rfl, ?_⟩
    have hb := networkRead_ten MAX hmax junk 3 (tagUID 0) (tagUID 1) (tagUID 2) (tagUID 3)
      255 priority speed (direction 0) (direction 1)
    simp only [bytes_ten, List.cons.injEq] at hb
    obtain ⟨r0, r1, r2, r3, r4, -, r6, -, r8, r9, -⟩ := hb
    refine ⟨r0, rfl, ?_⟩
    rw [handleMessage_update _ _ _ _ _ r0, r1, r2, r3, r4, r6, r8, r9, bytes_four, bytes_two]

/-- C1, instance (scenario B): with a 144-byte payload buffer, the
PriorityAssignment `03 0A 0B 0C 0D FF 80 64 00 01` built by
`SendPriorityUpdate` is reported by the Responder as tag `0A0B0C0D`, priority
128, direction `00 01`. -/
theorem wire_round_trip_witness :
    10 ≤ 144 ∧
    sent (ESP32.SendPriorityUpdate (fun _ => 0xAA) (ofList [0x0A, 0x0B, 0x0C, 0x0D]) 0x80 0x64
        (ofList [0x00, 0x01]) true) =
      [[0x03, 0x0A, 0x0B, 0x0C, 0x0D, 0xFF, 0x80, 0x64, 0x00, 0x01]] ∧
    ESP8266.handleMessage (fun _ => 0xAA)
        (networkRead 144 (fun _ => 0xAA)
          [0x03, 0x0A, 0x0B, 0x0C, 0x0D, 0xFF, 0x80, 0x64, 0x00, 0x01]) 150 0 true =
      [Event.print (Line.priorityUpdateReceived [0x0A, 0x0B, 0x0C, 0x0D] 128 [0x00, 0x01])] := by
  have hm : sent (ESP32.SendPriorityUpdate (fun _ => 0xAA) (ofList [0x0A, 0x0B, 0x0C, 0x0D])
      0x80 0x64 (ofList [0x00, 0x01]) true) =
      [[0x03, 0x0A, 0x0B, 0x0C, 0x0D, 0xFF, 0x80, 0x64, 0x00, 0x01]] := by
    rw [SendPriorityUpdate_events]
    rfl
  obtain ⟨-, -, m, h1, -, -, h2⟩ := wire_round_trip 144 (by decide) (fun _ => 0xAA)
    (fun _ => 0xAA) (fun _ => 0xAA) (ofList [0x0A, 0x0B, 0x0C, 0x0D]) (ofList [0x00, 0x01])
    false true true 0x80 0x64 150 0 150 0
  rw [hm] at h1
  obtain rfl : _ = m := List.head_eq_of_cons_eq h1
  exact ⟨by decide, hm, h2⟩

/-- C1, where the claim fails: `handleMessage` does not yield the speed of a
PriorityAssignment.  The messages built by `SendPriorityUpdate` for speeds 100
and 50 (same tag, priority and direction) differ at offset 7, and
`handleMessage` extracts the same three fields, tag, priority and direction,
from both. -/
theorem priority_update_speed_not_extracted :
    sent (ESP32.SendPriorityUpdate (fun _ => 0xAA) (ofList [0x0A, 0x0B, 0x0C, 0x0D]) 0x80 100
        (ofList [0x00, 0x01]) true) =
      [[0x03, 0x0A, 0x0B, 0x0C, 0x0D, 0xFF, 0x80, 100, 0x00, 0x01]] ∧
    sent (ESP32.SendPriorityUpdate (fun _ => 0xAA) (ofList [0x0A, 0x0B, 0x0C, 0x0D]) 0x80 50
        (ofList [0x00, 0x01]) true) =
      [[0x03, 0x0A, 0x0B, 0x0C, 0x0D, 0xFF, 0x80, 50, 0x00, 0x01]] ∧
    ESP8266.handleMessage (fun _ => 0xAA)
        (networkRead 144 (fun _ => 0xAA)
          [0x03, 0x0A, 0x0B, 0x0C, 0x0D, 0xFF, 0x80, 100, 0x00, 0x01]) 150 0 true =
      [Event.print (Line.priorityUpdateReceived [0x0A, 0x0B, 0x0C, 0x0D] 128 [0x00, 0x01])] ∧
    ESP8266.handleMessage (fun _ => 0xAA)
        (networkRead 144 (fun _ => 0xAA)
          [0x03, 0x0A, 0x0B, 0x0C, 0x0D, 0xFF, 0x80, 50, 0x00, 0x01]) 150 0 true =
      [Event.print (Line.priorityUpdateReceived [0x0A, 0x0B, 0x0C, 0x0D] 128 [0x00, 0x01])] := by
  refine ⟨?_, ?_, ?_, ?_⟩
  · rw [SendPriorityUpdate_events]
    rfl
  · rw [SendPriorityUpdate_events]
    rfl
  · rw [handleMessage_update _ _ _ _ _ rfl]
    rfl
  · rw [handleMessage_update _ _ _ _ _ rfl]
    rfl

/-! ## Frames whose length is not 10 -/

/-- C7, where the claim fails: frames of length 11, 1, 9 and 12 are handled,
not dropped.  With a 144-byte payload buffer whose stale content is `AA …`:
the Reader answers the 11-byte frame `02 01 02 03 04 FF FF 96 01 00 00` with a
PriorityAssignment, and answers the 1-byte frame `02` with a
PriorityAssignment made of stale bytes; the Responder answers the 9-byte frame
`01 01 02 03 04 00 FF FF FF` with a Response and records a priority update for
the 12-byte frame `03 0A 0B 0C 0D FF 80 64 00 01 00 00`. -/
theorem wrong_length_frames_handled :
    ESP32.loop 144 (fun _ => 0xAA)
        [⟨[0x02, 0x01, 0x02, 0x03, 0x04, 0xFF, 0xFF, 0x96, 0x01, 0x00, 0x00], fun _ => 0xAA, true⟩]
        none true [] =
      some [Event.print (Line.responseReceived [1, 2, 3, 4] 150 [1, 0]),
        Event.write 0 [0x03, 0x01, 0x02, 0x03, 0x04, 0xFF, 0xFF, 0x96, 0x01, 0x00],
        Event.print (Line.priorityUpdateSent true)] ∧
    ESP32.loop 144 (fun _ => 0xAA) [⟨[0x02], fun _ => 0xAA, true⟩] none true [] =
      some [Event.print (Line.responseReceived [0xAA, 0xAA, 0xAA, 0xAA] 0xAA [0xAA, 0xAA]),
        Event.write 0 [0x03, 0xAA, 0xAA, 0xAA, 0xAA, 0xFF, 0xFF, 0xAA, 0xAA, 0xAA],
        Event.print (Line.priorityUpdateSent true)] ∧
    ESP8266.loop 144
        [⟨[0x01, 0x01, 0x02, 0x03, 0x04, 0x00, 0xFF, 0xFF, 0xFF], fun _ => 0xAA, 150, 0, true⟩] =
      [Event.print (Line.queryReceived [1, 2, 3, 4] false),
        Event.write 1 [0x02, 0x01, 0x02, 0x03, 0x04, 0xFF, 0xFF, 0x96, 0x01, 0x00],
        Event.print (Line.responded [1, 2, 3, 4] 150 [1, 0] true)] ∧
    ESP8266.loop 144
        [⟨[0x03, 0x0A, 0x0B, 0x0C, 0x0D, 0xFF, 0x80, 0x64, 0x00, 0x01, 0x00, 0x00],
          fun _ => 0xAA, 150, 0, true⟩] =
      [Event.print (Line.priorityUpdateReceived [0x0A, 0x0B, 0x0C, 0x0D] 128 [0, 1])] := by
  refine ⟨?_, ?_, ?_, ?_⟩ <;> decide

/-- C7, as the code has it. Neither receive path checks a length:
`network.read` copies the frame over the payload buffer and the handler
dispatches on `payload[0]`.  With `MAX_PAYLOAD_SIZE > 0`, for every received
frame that is not empty, whatever its length (1, 9, 11, 256, …), the Reader's
receive path (`loop` with `HandleResponse`) sends and prints nothing exactly
when the first byte of the frame is not 2, and the Responder's (`loop` with
`handleMessage`) exactly when it is neither 1 nor 3.  For an empty frame the
same holds with the stale byte at offset 0 of the payload buffer in place of
the first byte. -/
theorem wrong_length_dispatch (MAX : Nat) (hM : 0 < MAX) (k : Nat) (rest : List Nat)
    (stk junk : Mem) (s p : Nat) (ok ok' : Bool) :
    (ESP32.loop MAX stk [⟨k :: rest, junk, ok⟩] none ok' [] = some [] ↔ k ≠ 2) ∧
    (ESP8266.loop MAX [⟨k :: rest, junk, s, p, ok⟩] = [] ↔ k ≠ 1 ∧ k ≠ 3) ∧
    (ESP32.loop MAX stk [⟨[], junk, ok⟩] none ok' [] = some [] ↔ junk 0 ≠ 2) ∧
    (ESP8266.loop MAX [⟨[], junk, s, p, ok⟩] = [] ↔ junk 0 ≠ 1 ∧ junk 0 ≠ 3) := by
  have hk : networkRead MAX junk (k :: rest) 0 = k := by simp [networkRead, hM]
  have h0 : networkRead MAX junk [] 0 = junk 0 := by simp [networkRead]
  refine ⟨?_, ?_, ?_, ?_⟩
  · simp only [ESP32.loop, ESP32.drain, List.append_nil, Option.some.injEq]
    rw [(kind_dispatch_aux junk (networkRead MAX junk (k :: rest)) s p ok).1, hk]
  · simp only [ESP8266.loop, List.append_nil]
    rw [(kind_dispatch_aux junk (networkRead MAX junk (k :: rest)) s p ok).2, hk]
  · simp only [ESP32.loop, ESP32.drain, List.append_nil, Option.some.injEq]
    rw [(kind_dispatch_aux junk (networkRead MAX junk []) s p ok).1, h0]
  · simp only [ESP8266.loop, List.append_nil]
    rw [(kind_dispatch_aux junk (networkRead MAX junk []) s p ok).2, h0]

/-- C7, instance: with a 144-byte payload buffer, the 3-byte frame `04 01 02`
is dropped by both receive paths. -/
theorem wrong_length_dispatch_witness :
    0 < 144 ∧
    ESP32.loop 144 (fun _ => 0xAA) [⟨[4, 1, 2], fun _ => 0xAA, true⟩] none true [] = some [] ∧
    ESP8266.loop 144 [⟨[4, 1, 2], fun _ => 0xAA, 150, 0, true⟩] = [] :=
  have h := wrong_length_dispatch 144 (by decide) 4 [1, 2] (fun _ => 0xAA) (fun _ => 0xAA)
    150 0 true true
  ⟨by decide, h.1.2 (by decide), h.2.1.2 (by decide)⟩

/-! ## Direction codes on receipt -/

/-- C9, where the claim fails: a direction pair outside the three codes is
not dropped.  `(07, 07)` and `(00, 00)` are not direction codes, yet the Reader
answers the Response `02 01 02 03 04 FF FF 96 07 07` with the PriorityAssignment
`03 01 02 03 04 FF FF 96 07 07`, and the Responder records the priority update
`03 0A 0B 0C 0D FF 80 64 00 00` with direction `00 00`. -/
theorem unknown_direction_not_dropped :
    (7, 7) ∉ DirectionCodes ∧
    sent (ESP32.HandleResponse (fun _ => 0xAA)
        (ofList [0x02, 0x01, 0x02, 0x03, 0x04, 0xFF, 0xFF, 0x96, 0x07, 0x07]) true) =
      [[0x03, 0x01, 0x02, 0x03, 0x04, 0xFF, 0xFF, 0x96, 0x07, 0x07]] ∧
    (0, 0) ∉ DirectionCodes ∧
    recorded (ESP8266.handleMessage (fun _ => 0xAA)
        (ofList [0x03, 0x0A, 0x0B, 0x0C, 0x0D, 0xFF, 0x80, 0x64, 0x00, 0x00]) 150 0 true) =
      [([0x0A, 0x0B, 0x0C, 0x0D], 128, [0x00, 0x00])] := by
  refine ⟨?_, ?_, ?_, ?_⟩ <;> decide

/-- C9, as the code has it. Neither handler checks the direction pair: for
every payload `b` with `b[0] = 2`, whatever `(b[8], b[9])` is, `HandleResponse`
sends the PriorityAssignment carrying that pair unchanged at offsets 8 and 9;
for every payload `c` with `c[0] = 3`, whatever `(c[8], c[9])` is,
`handleMessage` records exactly one priority update, with that pair as its
direction. -/
theorem direction_not_checked (stk b c : Mem) (s p : Nat) (ok : Bool) (hb : b 0 = 2)
    (hc : c 0 = 3) :
    sent (ESP32.HandleResponse stk b ok) =
      [[3, b 1, b 2, b 3, b 4, 0xFF, ESP32.computePriority (b 7) (ofList [b 8, b 9]),
        b 7, b 8, b 9]] ∧
    recorded (ESP8266.handleMessage stk c s p ok) =
      [([c 1, c 2, c 3, c 4], c 6, [c 8, c 9])] := by
  constructor
  · rw [HandleResponse_events stk b ok hb]
    rfl
  · rw [handleMessage_update stk c s p ok hc]
    rfl

/-- C9, instance: the payloads `02 01 02 03 04 FF FF 96 07 07` and
`03 0A 0B 0C 0D FF 80 64 00 00`. -/
theorem direction_not_checked_witness :
    ofList [0x02, 0x01, 0x02, 0x03, 0x04, 0xFF, 0xFF, 0x96, 0x07, 0x07] 0 = 2 ∧
    ofList [0x03, 0x0A, 0x0B, 0x0C, 0x0D, 0xFF, 0x80, 0x64, 0x00, 0x00] 0 = 3 ∧
    sent (ESP32.HandleResponse (fun _ => 0)
        (ofList [0x02, 0x01, 0x02, 0x03, 0x04, 0xFF, 0xFF, 0x96, 0x07, 0x07]) false) =
      [[3, 1, 2, 3, 4, 0xFF, 255, 0x96, 0x07, 0x07]] ∧
    recorded (ESP8266.handleMessage (fun _ => 0)
        (ofList [0x03, 0x0A, 0x0B, 0x0C, 0x0D, 0xFF, 0x80, 0x64, 0x00, 0x00]) 60 3 false) =
      [([0x0A, 0x0B, 0x0C, 0x0D], 0x80, [0x00, 0x00])] :=
  ⟨rfl, rfl, direction_not_checked (fun _ => 0)
    (ofList [0x02, 0x01, 0x02, 0x03, 0x04, 0xFF, 0xFF, 0x96, 0x07, 0x07])
    (ofList [0x03, 0x0A, 0x0B, 0x0C, 0x0D, 0xFF, 0x80, 0x64, 0x00, 0x00]) 60 3 false rfl rfl⟩

/-! ## The direction picker -/

/-- C6, on the code: `random(0, 4)` can return 0, 1, 2 and 3, and
`respondWithRandomSpeedDirection` maps one of them to Left `(01, 00)`, one to
Right `(00, 01)` and two (2 and 3) to Straight `(01, 01)`: the three codes do
not get the same number of picker outcomes. -/
theorem direction_picker_counts (stk tagUID : Mem) (s : Nat) (ok : Bool) :
    randomOutcomes 0 4 = [0, 1, 2, 3] ∧
    (randomOutcomes 0 4).countP (fun p => decide (sentDirection
      (ESP8266.respondWithRandomSpeedDirection stk tagUID s p ok) = some (1, 0))) = 1 ∧
    (randomOutcomes 0 4).countP (fun p => decide (sentDirection
      (ESP8266.respondWithRandomSpeedDirection stk tagUID s p ok) = some (0, 1))) = 1 ∧
    (randomOutcomes 0 4).countP (fun p => decide (sentDirection
      (ESP8266.respondWithRandomSpeedDirection stk tagUID s p ok) = some (1, 1))) = 2 ∧
    sentDirection (ESP8266.respondWithRandomSpeedDirection stk tagUID s 2 ok) = some (1, 1) ∧
    sentDirection (ESP8266.respondWithRandomSpeedDirection stk tagUID s 3 ok) = some (1, 1) := by
  have hr : randomOutcomes 0 4 = [0, 1, 2, 3] := by decide
  refine ⟨hr, ?_, ?_, ?_, ?_, ?_⟩ <;>
    simp [hr, sentDirection_respond, List.countP_cons, Prod.ext_iff]

/-! ## The tag-UID copy loop -/

/-- The copy loop stores at offsets `0, …, size - 1`, in that order. -/
theorem copyUID_writes (stk : Mem) (uid : ESP32.Uid) :
    (ESP32.copyUID stk uid).writes = List.range uid.size := by
  obtain ⟨n, u⟩ := uid
  simp only [ESP32.copyUID]
  induction n with
  | zero => rfl
  | succ k ih => simp only [List.range_succ, List.foldl_append, List.foldl_cons, List.foldl_nil, ih]

/-- C10, on the code: the copy loop stores at every offset below the UID size,
so its stores stay inside `tagUID[4]` exactly when the size is at most 4.  For
a 7-byte UID it stores at offsets 0 to 6, three of them past the end of
`tagUID`, and `loop` has no defined behaviour. -/
theorem copyUID_out_of_bounds (stk : Mem) (uid : ESP32.Uid) :
    ((∀ i ∈ (ESP32.copyUID stk uid).writes, i < 4) ↔ uid.size ≤ 4) ∧
    (ESP32.copyUID (fun _ => 0xAA)
      ⟨7, ofList [0x04, 0x11, 0x22, 0x33, 0x44, 0x55, 0x66]⟩).writes = [0, 1, 2, 3, 4, 5, 6] ∧
    ESP32.loop 144 (fun _ => 0xAA) []
      (some ⟨7, ofList [0x04, 0x11, 0x22, 0x33, 0x44, 0x55, 0x66]⟩) true [] = none := by
  refine ⟨?_, by decide, by decide⟩
  rw [copyUID_writes]
  constructor
  · intro h
    by_contra hc
    have := h 4 (List.mem_range.2 (by omega))
    omega
  · intro h i hi
    have := List.mem_range.1 hi
    omega

end RF24Demo
